import Mathlib

/-
Shallow embedding of `run_container_plugin.py` (kill-containers chaos step).

The plugin's cluster interactions (kubeconfig loading, pod listing, pod-spec
reads, in-container exec) are modelled as an oracle record `ClusterApi` whose
operations return `Except String` values: `Except.error e` models a raised
Python exception whose text is `e` (all exceptions raised by the kubernetes
client derive from `Exception`, so the plugin's top-level `except Exception`
catches them).  The functions of the module are translated one-for-one from
the source, including its defects:

  * line 170 binds `pods` to the 3-tuple `(core_v1, cfg.label_selector,
    cfg.namespace)` - a tuple literal, not a call to `list_pods`;
  * line 184 returns the fixed string
    "Cannot find the specified container in the pods matching the label,
    please check";
  * line 185 evaluates `pod.metadata.namespace` where `pod` is an element of
    that tuple (a `CoreV1Api` instance, an `Optional[str]`, or a `str`), none
    of which has a `metadata` attribute, so `AttributeError` is raised;
  * line 188 references the bare name `container_name`, which is not defined
    anywhere in scope, so `NameError` would be raised;
  * line 190 references `time`, a module that is never imported, so
    `NameError` would be raised;
  * line 39 (inside `list_pods`) references `logging`, never imported, so an
    `ApiException` from the list call turns into a `NameError`;
  * line 167 calls `setup_kubernetes(None)`, ignoring `cfg.kubeconfig_path`.

To make effects visible to theorems, the run result carries, besides the
returned tag and payload, the list of exec requests issued and the path that
was handed to the kubeconfig loader.
-/

namespace ContainerPlugin

/-- Python values that can occupy the tuple bound to `pods` on line 170:
the `CoreV1Api` client object, `None` (when `cfg.label_selector` is absent),
or a `str`. -/
inductive PyVal where
  | apiObj
  | pyNone
  | pyStr (s : String)
deriving DecidableEq

/-- Model of a `V1Pod` as the plugin reads it: `metadata.name` and the names
of `spec.containers` in spec order. -/
structure V1Pod where
  name : String
  containers : List String
deriving DecidableEq

/-- The arguments of a `stream(core_v1.connect_get_namespaced_pod_exec, ...)`
call as built by `exec_cmd_in_pod` (lines 52-76). -/
structure ExecRequest where
  pod_name : PyVal
  «namespace» : String
  container : Option String
  command : List String
  stderr : Bool
  stdin : Bool
  stdout : Bool
  tty : Bool
deriving DecidableEq

/-- The `KillContainerConfig` dataclass (lines 114-155), with the source's
defaults.  The SDK additionally validates `kill >= 1` and
`len(label_selector) >= 1`; the dataclass itself has exactly these six
fields - in particular there is no `name_pattern` field, although the
`required_if_not("name_pattern")` annotation on `label_selector` names one. -/
structure KillContainerConfig where
  «namespace» : String
  container_name : Option String := none
  command : String := "kill 1"
  kill : Nat := 1
  label_selector : Option String := none
  kubeconfig_path : Option String := none
deriving DecidableEq

/-- The `Container` dataclass (lines 92-96). -/
structure Container where
  «namespace» : String
  name : String
  container : String
deriving DecidableEq

/-- The union `ContainerKillSuccessOutput | ContainerKillErrorOutput`
(lines 99-110).  The token-keyed dict `containers` is modelled as an
association list in insertion order. -/
inductive ContainerKillOutput where
  | success (containers : List (Nat × Container))
  | error (error : String)
deriving DecidableEq

/-- Oracle for the cluster-facing operations.  Each returns `Except.error e`
to model a raised exception with text `e`. -/
structure ClusterApi where
  load_kube_config : String → Except String Unit
  list_namespaced_pod : String → Option String → Except String (List V1Pod)
  read_namespaced_pod : PyVal → String → Except String V1Pod
  podExec : ExecRequest → Except String String

/-- Python truthiness of an `Optional[str]`: `None` and the empty string are
falsy. -/
def truthy_str : Option String → Bool
  | none => false
  | some s => s != ""

/-- Python membership `x in l` where `x` is an `Optional[str]` and `l` a list
of `str`: `None` equals no string, so it is a member of no such list. -/
def opt_str_mem (x : Option String) (l : List String) : Bool :=
  match x with
  | none => false
  | some s => l.contains s

/-- The kubernetes client constant `KUBE_CONFIG_DEFAULT_LOCATION`. -/
def kube_config_default_location : String := "~/.kube/config"

/-- Lines 14-15: `if kubeconfig_path is None: kubeconfig_path =
config.KUBE_CONFIG_DEFAULT_LOCATION`. -/
def resolved_config_source : Option String → String
  | none => kube_config_default_location
  | some p => p

/-- `setup_kubernetes` (lines 13-28): resolves the config path and loads the
kubeconfig (merger, loader, `ApiClient` construction are collapsed into the
oracle's `load_kube_config`, whose `Except.error` covers a missing or
unparsable file and the explicit `raise` on an empty configuration). -/
def setup_kubernetes (api : ClusterApi) (kubeconfig_path : Option String) :
    Except String Unit :=
  api.load_kube_config (resolved_config_source kubeconfig_path)

/-- Message of the `NameError` raised on line 39: the except-branch of
`list_pods` calls `logging.error(...)` but `logging` is never imported, so
the `NameError` is raised before `raise e` executes. -/
def nameError_logging : String := "NameError: name logging is not defined"

/-- Message of the `NameError` that line 188 would raise: the bare name
`container_name` is not defined in any scope of the module. -/
def nameError_container_name : String :=
  "NameError: name container_name is not defined"

/-- Message of the `IndexError` a tuple index out of range would raise. -/
def indexError_tuple : String := "IndexError: tuple index out of range"

/-- Message of the `AttributeError` raised by `v.metadata` on the values that
can occupy the `pods` tuple of line 170. -/
def attributeError_metadata (tyName : String) : String :=
  "AttributeError: " ++ tyName ++ " object has no attribute metadata"

/-- Attribute lookup `pod.metadata` (lines 186-187) on an element of the
tuple `(core_v1, cfg.label_selector, cfg.namespace)`: a `CoreV1Api` instance,
`None`, or a `str`.  None of these Python types defines a `metadata`
attribute, so the lookup raises `AttributeError` in every case. -/
def PyVal.attr_metadata : PyVal → Except String Unit
  | .apiObj => .error (attributeError_metadata "CoreV1Api")
  | .pyNone => .error (attributeError_metadata "NoneType")
  | .pyStr _ => .error (attributeError_metadata "str")

/-- `traceback.format_exc()` as used on line 196: the traceback text of the
exception caught by the top-level handler. -/
def format_exc (e : String) : String :=
  "Traceback (most recent call last):\n" ++ e

/-- `list_pods` (lines 31-47): lists the namespace's pods, passing the label
selector only when it is truthy, and collects `pod.metadata.name` over
`ret.items` in order.  On `ApiException` the except-branch first evaluates
`logging.error(...)`, and since `logging` is not imported a `NameError`
propagates instead of the re-raised `ApiException`. -/
def list_pods (api : ClusterApi) (ns : String)
    (label_selector : Option String := none) : Except String (List String) :=
  match api.list_namespaced_pod ns
      (if truthy_str label_selector then label_selector else none) with
  | .error _e => .error nameError_logging
  | .ok ret => .ok (ret.map (fun pod => pod.name))

/-- The `stream(...)` request built by `exec_cmd_in_pod` (lines 52-76): argv
`[base_command, "-c", command]`, stderr and stdout captured, stdin disabled,
no tty; the `container` keyword is passed only when the `container` argument
is truthy (`if container:` on line 54). -/
def exec_request (command : String) (pod_name : PyVal) (ns : String)
    (container : Option String) (base_command : String) : ExecRequest :=
  if truthy_str container then
    { pod_name := pod_name, «namespace» := ns, container := container,
      command := [base_command, "-c", command],
      stderr := true, stdin := false, stdout := true, tty := false }
  else
    { pod_name := pod_name, «namespace» := ns, container := none,
      command := [base_command, "-c", command],
      stderr := true, stdin := false, stdout := true, tty := false }

/-- `exec_cmd_in_pod` (lines 50-79): issues the stream request and returns
the captured output; its `except` clause just re-raises, so the oracle's
result passes through unchanged.  `base_command` defaults to `"bash"`. -/
def exec_cmd_in_pod (api : ClusterApi) (command : String) (pod_name : PyVal)
    (ns : String) (container : Option String := none)
    (base_command : String := "bash") : Except String String :=
  api.podExec (exec_request command pod_name ns container base_command)

/-- `get_containers_in_pod` (lines 82-89): reads the pod spec and collects
the container names (the `V1Pod` model already holds them in spec order). -/
def get_containers_in_pod (api : ClusterApi) (pod_name : PyVal)
    (ns : String) : Except String (List String) :=
  match api.read_namespaced_pod pod_name ns with
  | .error e => .error e
  | .ok pod_info => .ok pod_info.containers

/-- Line 170: `pods = (core_v1, cfg.label_selector, cfg.namespace)` - a
3-tuple of the API object and two configuration fields.  `list_pods` is never
called by `kill_containers`. -/
def pods_tuple (cfg : KillContainerConfig) : List PyVal :=
  [PyVal.apiObj, (match cfg.label_selector with
    | none => PyVal.pyNone
    | some s => PyVal.pyStr s), PyVal.pyStr cfg.«namespace»]

/-- How the `for` loop of lines 178-190 exits.  Every path through the loop
body either returns (`earlyError`), or raises (`raised`): after a successful
exec, line 185 evaluates `pod.metadata`, which raises `AttributeError` for
every possible `pod` (and were it to succeed, the bare name `container_name`
on line 188 and the unimported `time` on line 190 would raise `NameError`).
Consequently the body never completes an iteration and the loop never
advances past `i = 0`; `completed` is reached only when `range(cfg.kill)` is
empty. -/
inductive LoopExit where
  | raised (e : String)
  | earlyError (msg : String)
  | completed (killed : List (Nat × Container))
deriving DecidableEq

/-- The loop `for i in range(cfg.kill)` of lines 178-190.  `remaining` is the
number of iterations left, `killed` the dict built so far, `tr` the exec
requests issued so far.  The body is translated statement by statement:
`pod = pods[i]`; `containers = get_containers_in_pod(...)`; the membership
test `cfg.container_name in containers`; the exec call; then line 185's
`Container(pod.metadata.namespace, pod.metadata.name, container_name)`, whose
two `pod.metadata` lookups raise `AttributeError` and whose third argument
would raise `NameError`.  Since every branch of the body leaves the loop,
the translation has no recursive call. -/
def kill_loop (api : ClusterApi) (cfg : KillContainerConfig)
    (pods : List PyVal) (i : Nat) (remaining : Nat)
    (killed : List (Nat × Container)) (tr : List ExecRequest) :
    LoopExit × List ExecRequest :=
  match remaining with
  | 0 => (LoopExit.completed killed, tr)
  | _ + 1 =>
    match pods.get? i with
    | none => (LoopExit.raised indexError_tuple, tr)
    | some pod =>
      match get_containers_in_pod api pod cfg.«namespace» with
      | .error e => (LoopExit.raised e, tr)
      | .ok containers =>
        if opt_str_mem cfg.container_name containers then
          match exec_cmd_in_pod api cfg.command pod cfg.«namespace»
              cfg.container_name "bash" with
          | .error e =>
            (LoopExit.raised e,
              tr ++ [exec_request cfg.command pod cfg.«namespace»
                cfg.container_name "bash"])
          | .ok _ret =>
            match pod.attr_metadata with
            | .error e =>
              (LoopExit.raised e,
                tr ++ [exec_request cfg.command pod cfg.«namespace»
                  cfg.container_name "bash"])
            | .ok _ =>
              match pod.attr_metadata with
              | .error e =>
                (LoopExit.raised e,
                  tr ++ [exec_request cfg.command pod cfg.«namespace»
                    cfg.container_name "bash"])
              | .ok _ =>
                (LoopExit.raised nameError_container_name,
                  tr ++ [exec_request cfg.command pod cfg.«namespace»
                    cfg.container_name "bash"])
        else
          (LoopExit.earlyError
            "Cannot find the specified container in the pods matching the label, please check",
            tr)

/-- The observable result of one `kill_containers` invocation: the returned
tag and payload, plus two effect traces - the exec requests issued and the
path handed to the kubeconfig loader. -/
structure RunResult where
  tag : String
  output : ContainerKillOutput
  execCalls : List ExecRequest
  configSource : String
deriving DecidableEq

/-- `kill_containers` (lines 165-197).  The whole body sits in a
`try`/`except Exception` whose handler returns
`("error", ContainerKillErrorOutput(format_exc()))`; inside it:
`setup_kubernetes(None)` (line 167 - `cfg.kubeconfig_path` is ignored), the
tuple binding of line 170, the insufficiency check of line 171 against
`len(pods)` (which is the tuple's length, 3), the loop of lines 178-190, and
the success return of line 192. -/
def kill_containers (api : ClusterApi) (cfg : KillContainerConfig) :
    RunResult :=
  match setup_kubernetes api none with
  | .error e =>
    { tag := "error", output := .error (format_exc e), execCalls := [],
      configSource := resolved_config_source none }
  | .ok _ =>
    if (pods_tuple cfg).length < cfg.kill then
      { tag := "error",
        output := .error ("Not enough pods match the criteria, expected "
          ++ toString cfg.kill ++ " but found only "
          ++ toString (pods_tuple cfg).length ++ " pods"),
        execCalls := [], configSource := resolved_config_source none }
    else
      match kill_loop api cfg (pods_tuple cfg) 0 cfg.kill [] [] with
      | (LoopExit.raised e, tr) =>
        { tag := "error", output := .error (format_exc e), execCalls := tr,
          configSource := resolved_config_source none }
      | (LoopExit.earlyError msg, tr) =>
        { tag := "error", output := .error msg, execCalls := tr,
          configSource := resolved_config_source none }
      | (LoopExit.completed killed, tr) =>
        { tag := "success", output := .success killed, execCalls := tr,
          configSource := resolved_config_source none }

/-- Exception text for a kubernetes `ApiException` with HTTP status 404. -/
def apiException404 : String := "ApiException: (404) pod not found"

/-- Pod-spec lookup by name over a fixed pod list: a `str` pod name resolves
against the list, anything else (such as the `CoreV1Api` object that line 179
passes on the first iteration) yields a 404 `ApiException`, since its `str()`
form names no pod. -/
def findPod (pods : List V1Pod) : PyVal → String → Except String V1Pod
  | PyVal.pyStr s, _ =>
    match pods.find? (fun p => p.name == s) with
    | some p => Except.ok p
    | none => Except.error apiException404
  | _, _ => Except.error apiException404

/-- Two pods, both containing the target container `"app"`. -/
def demoPods : List V1Pod :=
  [{ name := "web-1", containers := ["app", "sidecar"] },
   { name := "web-2", containers := ["app"] }]

/-- A cluster with the two `demoPods`; kubeconfig loads fine and every exec
succeeds. -/
def apiWeb : ClusterApi :=
  { load_kube_config := fun _ => Except.ok (),
    list_namespaced_pod := fun _ _ => Except.ok demoPods,
    read_namespaced_pod := findPod demoPods,
    podExec := fun _ => Except.ok "" }

/-- Two pods of which only the first contains the target container. -/
def mixedPods : List V1Pod :=
  [{ name := "web-1", containers := ["app"] },
   { name := "db-1", containers := ["db"] }]

/-- A cluster with the two `mixedPods`. -/
def apiMixed : ClusterApi :=
  { load_kube_config := fun _ => Except.ok (),
    list_namespaced_pod := fun _ _ => Except.ok mixedPods,
    read_namespaced_pod := findPod mixedPods,
    podExec := fun _ => Except.ok "" }

/-- A cluster whose listing matches zero pods, while any pod-spec read
nevertheless reports a pod containing `"app"` and every exec succeeds. -/
def apiPermissive : ClusterApi :=
  { load_kube_config := fun _ => Except.ok (),
    list_namespaced_pod := fun _ _ => Except.ok [],
    read_namespaced_pod := fun _ _ =>
      Except.ok { name := "ghost", containers := ["app"] },
    podExec := fun _ => Except.ok "" }

/-- A valid configuration with the default `kill = 1`. -/
def cfgKill1 : KillContainerConfig :=
  { «namespace» := "chaos", container_name := some "app",
    label_selector := some "app=web" }

/-- A valid configuration requesting two kills. -/
def cfgKill2 : KillContainerConfig :=
  { «namespace» := "chaos", container_name := some "app", kill := 2,
    label_selector := some "app=web" }

/-- A valid configuration requesting five kills. -/
def cfgKill5 : KillContainerConfig :=
  { «namespace» := "chaos", container_name := some "app", kill := 5,
    label_selector := some "app=web" }

/-- A configuration with `kill = 0`.  The SDK's `validation.min(1)` rejects
it, but it exercises the one control path of the function body that reaches
the success return (an empty `range`). -/
def cfgKill0 : KillContainerConfig :=
  { «namespace» := "chaos", container_name := some "app", kill := 0,
    label_selector := some "app=web" }

/-- A valid configuration that supplies an explicit kubeconfig path. -/
def cfgCustomKubeconfig : KillContainerConfig :=
  { «namespace» := "chaos", container_name := some "app",
    label_selector := some "app=web",
    kubeconfig_path := some "/custom/kubeconfig" }

/-- Helper: with at least one iteration left, the loop never exits through
`completed` - every path through the body returns early or raises. -/
theorem kill_loop_succ_not_completed (api : ClusterApi)
    (cfg : KillContainerConfig) (pods : List PyVal) (i n : Nat)
    (killed : List (Nat × Container)) (tr : List ExecRequest)
    (xs : List (Nat × Container)) (tr2 : List ExecRequest)
    (h : kill_loop api cfg pods i (n + 1) killed tr
      = (LoopExit.completed xs, tr2)) : False := by
  simp only [kill_loop] at h
  rcases hg : pods.get? i with _ | pod <;> rw [hg] at h
  · simp at h
  · simp only [get_containers_in_pod] at h
    rcases hr : api.read_namespaced_pod pod cfg.«namespace» with e | info <;>
      rw [hr] at h
    · simp at h
    · rcases hm : opt_str_mem cfg.container_name info.containers <;>
        simp only [hm, Bool.false_eq_true, if_false, if_true] at h
      · simp at h
      · rcases he : exec_cmd_in_pod api cfg.command pod cfg.«namespace»
            cfg.container_name "bash" with e | out <;> rw [he] at h
        · simp at h
        · rcases ha : pod.attr_metadata with e | u <;> rw [ha] at h <;>
            simp at h

/-- Helper: if the loop exits through `completed`, the returned list is the
`killed` accumulator it was entered with (the body never appends to it). -/
theorem kill_loop_completed_init (api : ClusterApi)
    (cfg : KillContainerConfig) (pods : List PyVal) (i rem : Nat)
    (killed : List (Nat × Container)) (tr : List ExecRequest)
    (xs : List (Nat × Container)) (tr2 : List ExecRequest)
    (h : kill_loop api cfg pods i rem killed tr
      = (LoopExit.completed xs, tr2)) : xs = killed := by
  cases rem with
  | zero =>
    simp only [kill_loop, Prod.mk.injEq, LoopExit.completed.injEq] at h
    exact h.1.symm
  | succ n =>
    exact absurd h (fun h => kill_loop_succ_not_completed api cfg pods i n
      killed tr xs tr2 h)

/-- Claim C1: the insufficiency check is not evaluated against the actual
count of discovered candidate pods.  Concretely: on a cluster where the
namespace and selector match zero pods (`apiPermissive`), a run with
`kill = 2` does not return the claimed
"not enough pods match the criteria, expected 2 but found 0" error - the
check compares `kill` against `len((core_v1, label_selector, namespace))`,
which is 3 - and the run even issues one exec call although no candidate
exists. -/
theorem insufficiency_check_not_against_discovered_count :
    list_pods apiPermissive "chaos" (some "app=web") = Except.ok []
  ∧ cfgKill2.kill = 2
  ∧ (kill_containers apiPermissive cfgKill2).tag = "error"
  ∧ (kill_containers apiPermissive cfgKill2).output ≠
      ContainerKillOutput.error
        "not enough pods match the criteria, expected 2 but found 0"
  ∧ (kill_containers apiPermissive cfgKill2).execCalls.length = 1 :=
  ⟨rfl, rfl, rfl, by decide, rfl⟩

/-- Claim C2: the success outcome is unreachable even in the nominal case.
On `apiWeb` two candidate pods exist, the target container `"app"` is present
in the first candidate, and every exec succeeds; yet with `kill = 1` the run
returns the error outcome (the first loop iteration binds `pod` to the
`core_v1` object from the tuple on line 170, and reading a pod spec for it
raises), issuing zero exec calls and producing no records. -/
theorem success_state_unreachable :
    list_pods apiWeb "chaos" (some "app=web") = Except.ok ["web-1", "web-2"]
  ∧ apiWeb.read_namespaced_pod (PyVal.pyStr "web-1") "chaos" =
      Except.ok { name := "web-1", containers := ["app", "sidecar"] }
  ∧ (kill_containers apiWeb cfgKill1).tag = "error"
  ∧ (kill_containers apiWeb cfgKill1).output =
      ContainerKillOutput.error (format_exc apiException404)
  ∧ (kill_containers apiWeb cfgKill1).execCalls = [] :=
  ⟨rfl, rfl, rfl, rfl, rfl⟩

/-- Claim C3: with the target container present in candidate 0 and absent
from candidate 1 and `kill = 2`, the claimed behavior (error
"cannot find the specified container in the pods matching the label
selector" after exactly 1 exec call) does not occur: the run returns an
error built from a traceback, with zero exec calls, because the first loop
iteration never reaches a real candidate pod. -/
theorem container_missing_mid_run_diverges :
    list_pods apiMixed "chaos" (some "app=web") = Except.ok ["web-1", "db-1"]
  ∧ apiMixed.read_namespaced_pod (PyVal.pyStr "web-1") "chaos" =
      Except.ok { name := "web-1", containers := ["app"] }
  ∧ apiMixed.read_namespaced_pod (PyVal.pyStr "db-1") "chaos" =
      Except.ok { name := "db-1", containers := ["db"] }
  ∧ (kill_containers apiMixed cfgKill2).tag = "error"
  ∧ (kill_containers apiMixed cfgKill2).execCalls.length = 0
  ∧ (kill_containers apiMixed cfgKill2).output ≠ ContainerKillOutput.error
      "cannot find the specified container in the pods matching the label selector" :=
  ⟨rfl, rfl, rfl, rfl, rfl, by decide⟩

/-- Claim C4: for every configuration and every behavior of the cluster
operations (any of which may raise), `kill_containers` returns exactly one
tagged outcome - `"success"` with a records payload or `"error"` with a
diagnostic string - and never lets an exception escape: the whole body sits
inside `try ... except Exception`. -/
theorem kill_containers_returns_tagged_outcome (api : ClusterApi)
    (cfg : KillContainerConfig) :
    ((kill_containers api cfg).tag = "success"
      ∧ ∃ recs, (kill_containers api cfg).output
          = ContainerKillOutput.success recs)
  ∨ ((kill_containers api cfg).tag = "error"
      ∧ ∃ msg, (kill_containers api cfg).output
          = ContainerKillOutput.error msg) := by
  unfold kill_containers
  cases setup_kubernetes api none with
  | error e => exact Or.inr ⟨rfl, _, rfl⟩
  | ok u =>
    by_cases hk : (pods_tuple cfg).length < cfg.kill
    · rw [if_pos hk]
      exact Or.inr ⟨rfl, _, rfl⟩
    · rw [if_neg hk]
      rcases kill_loop api cfg (pods_tuple cfg) 0 cfg.kill [] [] with ⟨ex, tr⟩
      cases ex with
      | raised e => exact Or.inr ⟨rfl, _, rfl⟩
      | earlyError m => exact Or.inr ⟨rfl, _, rfl⟩
      | completed killed => exact Or.inl ⟨rfl, _, rfl⟩

/-- Claim C5: for every cluster behavior, a run whose kill count is at least
1 and which passes the insufficiency check (kill count at most 3, the length
of the tuple bound on line 170) never returns the success outcome: every
path through the per-pod loop ends in the error outcome. -/
theorem kill_containers_never_success (api : ClusterApi)
    (cfg : KillContainerConfig) (h1 : 1 ≤ cfg.kill) (h2 : cfg.kill ≤ 3) :
    (kill_containers api cfg).tag = "error" := by
  obtain ⟨n, hn⟩ : ∃ n, cfg.kill = n + 1 := ⟨cfg.kill - 1, by omega⟩
  unfold kill_containers
  cases setup_kubernetes api none with
  | error e => rfl
  | ok u =>
    by_cases hk : (pods_tuple cfg).length < cfg.kill
    · rw [if_pos hk]
    · rw [if_neg hk]
      rcases hl : kill_loop api cfg (pods_tuple cfg) 0 cfg.kill [] []
        with ⟨ex, tr⟩
      cases ex with
      | raised e => rfl
      | earlyError m => rfl
      | completed killed =>
        rw [hn] at hl
        exact (kill_loop_succ_not_completed api cfg (pods_tuple cfg) 0 n
          [] [] killed tr hl).elim

/-- Witness for C5 at a concrete input: `cfgKill1` has kill count 1, passes
the insufficiency check, and the run on `apiWeb` returns the error tag. -/
theorem kill_containers_never_success_witness :
    1 ≤ cfgKill1.kill ∧ cfgKill1.kill ≤ 3
  ∧ (kill_containers apiWeb cfgKill1).tag = "error" :=
  ⟨by decide, by decide,
    kill_containers_never_success apiWeb cfgKill1 (by decide) (by decide)⟩

/-- Claim C6: no run ever stores a kill record, so no token is ever
generated - every success outcome carries an empty records mapping (the
token-generation line 190 is unreachable: line 185 raises first, and line
190 itself references the unimported module `time`). -/
theorem success_records_always_empty (api : ClusterApi)
    (cfg : KillContainerConfig) (recs : List (Nat × Container))
    (h : (kill_containers api cfg).output
      = ContainerKillOutput.success recs) : recs = [] := by
  unfold kill_containers at h
  rcases hs : setup_kubernetes api none with e | u <;> rw [hs] at h
  · simp at h
  · by_cases hk : (pods_tuple cfg).length < cfg.kill
    · rw [if_pos hk] at h
      simp at h
    · rw [if_neg hk] at h
      rcases hl : kill_loop api cfg (pods_tuple cfg) 0 cfg.kill [] []
        with ⟨ex, tr⟩
      rw [hl] at h
      cases ex with
      | raised e => simp at h
      | earlyError m => simp at h
      | completed killed =>
        simp at h
        subst h
        exact kill_loop_completed_init api cfg (pods_tuple cfg) 0 cfg.kill
          [] [] killed tr hl

/-- Witness for C6 at a concrete input: with `kill = 0` (the only way to
reach the success return) the records mapping of the success outcome is
empty. -/
theorem success_records_always_empty_witness :
    (kill_containers apiWeb cfgKill0).output = ContainerKillOutput.success []
  ∧ ([] : List (Nat × Container)) = [] :=
  ⟨rfl, success_records_always_empty apiWeb cfgKill0 [] rfl⟩

/-- Claim C7: the input configuration is exactly its six fields - namespace,
container_name, command, kill, label_selector, kubeconfig_path - so there is
no namePattern selection mode; and the only selection operation,
`list_pods`, applies no client-side name filtering: without a label selector
it returns every pod name of the namespace. -/
theorem no_name_pattern_selection_mode :
    (∀ c : KillContainerConfig,
      c = { «namespace» := c.«namespace»,
            container_name := c.container_name,
            command := c.command, kill := c.kill,
            label_selector := c.label_selector,
            kubeconfig_path := c.kubeconfig_path })
  ∧ list_pods apiWeb "chaos" none = Except.ok ["web-1", "web-2"] :=
  ⟨fun _c => rfl, rfl⟩

/-- Claim C8: the run ignores the supplied `kubeconfig_path`: line 167 calls
`setup_kubernetes(None)`, so the configuration source is always the default
kubeconfig location, even when the input supplies an explicit path. -/
theorem kubeconfig_path_ignored :
    cfgCustomKubeconfig.kubeconfig_path = some "/custom/kubeconfig"
  ∧ (kill_containers apiWeb cfgCustomKubeconfig).configSource
      = kube_config_default_location
  ∧ kube_config_default_location ≠ "/custom/kubeconfig" :=
  ⟨rfl, rfl, by decide⟩

/-- Claim C9: `exec_cmd_in_pod` issues the argument vector
`[shell, "-c", command]` with stderr and stdout captured, stdin disabled and
no tty, targets the named container exactly when one is given (a nonempty
name; `None` means the pod's default container), returns the captured
output, and the shell defaults to `"bash"`. -/
theorem exec_runs_shell_dash_c_noninteractive (api : ClusterApi)
    (command : String) (pod_name : PyVal) (ns : String)
    (container : Option String) (base_command : String)
    (hc : container ≠ some "") :
    exec_request command pod_name ns container base_command =
      { pod_name := pod_name, «namespace» := ns, container := container,
        command := [base_command, "-c", command],
        stderr := true, stdin := false, stdout := true, tty := false }
  ∧ exec_cmd_in_pod api command pod_name ns container base_command
      = api.podExec (exec_request command pod_name ns container base_command)
  ∧ exec_cmd_in_pod api command pod_name ns container
      = api.podExec (exec_request command pod_name ns container "bash") := by
  refine ⟨?_, rfl, rfl⟩
  cases container with
  | none => rfl
  | some c =>
    have hcc : c ≠ "" := fun hce => hc (by rw [hce])
    simp [exec_request, truthy_str, hcc]

/-- Witness for C9 at a concrete input: an exec of `kill 1` in container
`app` of pod `web-1` with shell `sh`. -/
theorem exec_runs_shell_dash_c_noninteractive_witness :
    (some "app" : Option String) ≠ some ""
  ∧ (exec_request "kill 1" (PyVal.pyStr "web-1") "chaos" (some "app") "sh" =
      { pod_name := PyVal.pyStr "web-1", «namespace» := "chaos",
        container := some "app", command := ["sh", "-c", "kill 1"],
        stderr := true, stdin := false, stdout := true, tty := false }
    ∧ exec_cmd_in_pod apiWeb "kill 1" (PyVal.pyStr "web-1") "chaos"
        (some "app") "sh"
      = apiWeb.podExec (exec_request "kill 1" (PyVal.pyStr "web-1") "chaos"
          (some "app") "sh")
    ∧ exec_cmd_in_pod apiWeb "kill 1" (PyVal.pyStr "web-1") "chaos"
        (some "app")
      = apiWeb.podExec (exec_request "kill 1" (PyVal.pyStr "web-1") "chaos"
          (some "app") "bash")) :=
  ⟨by decide, exec_runs_shell_dash_c_noninteractive apiWeb "kill 1"
    (PyVal.pyStr "web-1") "chaos" (some "app") "sh" (by decide)⟩

/-- Claim C10: whenever the cluster API call made by `list_pods` succeeds
with a list of pods, `list_pods` returns exactly their names in the API's
order (a plain map, no client-side sorting), and in particular an empty
sequence - not an error - when nothing matches. -/
theorem list_pods_preserves_api_order (api : ClusterApi) (ns : String)
    (sel : Option String) (items : List V1Pod)
    (h : api.list_namespaced_pod ns
      (if truthy_str sel then sel else none) = Except.ok items) :
    list_pods api ns sel = Except.ok (items.map V1Pod.name) := by
  unfold list_pods
  rw [h]

/-- Witness for C10 at a concrete input: listing namespace `chaos` with
selector `app=web` on `apiWeb` yields the two pod names in API order. -/
theorem list_pods_preserves_api_order_witness :
    apiWeb.list_namespaced_pod "chaos"
      (if truthy_str (some "app=web") then some "app=web" else none)
      = Except.ok demoPods
  ∧ list_pods apiWeb "chaos" (some "app=web")
      = Except.ok ["web-1", "web-2"] :=
  ⟨rfl, list_pods_preserves_api_order apiWeb "chaos" (some "app=web")
    demoPods rfl⟩

end ContainerPlugin
